import Mathlib

/-!
Verification development for the Bilibili live-status monitor plugin
(`main.py`). The asynchronous, networked code is embedded shallowly:

* Python dicts become association lists `List (String × α)` with the
  unique-keys representation invariant; `d[k] = v` is `insertOrReplace`,
  `d.pop(k, None)` is `aerase`, `d.get(k)` is `alookup`.
* The single HTTP request performed by `get_live_status_batch` is
  abstracted by a `FetchOutcome` value describing what the network/parse
  layer produced; the function itself is the pure normalisation code
  around that request.
* The event-loop clock (`loop.time()`) is an abstract `Nat` time.
* `live_status` values are the raw integers of the upstream payload,
  modelled as `Nat` (only `= 1` is semantically meaningful).
-/

set_option autoImplicit false

namespace BiliLive

/-- One normalised status record, as built by `get_live_status_batch`:
the four keys `live_status`, `room_id`, `title`, `uname` are always
present. -/
structure LiveStatus where
  live_status : Nat
  room_id : Nat
  title : String
  uname : String
deriving Repr, DecidableEq

/-- `{"live_status": 0, "room_id": 0, "title": "", "uname": ""}` — the
zero-value fallback used throughout the source. -/
def defaultStatus : LiveStatus := ⟨0, 0, "", ""⟩

/-- One raw upstream record, before normalisation; a field is `none`
when the corresponding key is absent from the JSON object.  `uidField`
stands for `entry.get("uid") or entry.get("mid")` in the list-shaped
response, with `none` covering every falsy outcome of that chain. -/
structure RawRecord where
  live_status : Option Nat
  room_id : Option Nat
  title : Option String
  uname : Option String
  uidField : Option String
deriving Repr, DecidableEq

/-- The `data` object of a 200/code-0 payload: a keyed mapping, a list
of records, or anything else (in which case the source fills everything
with defaults). -/
inductive DataObj where
  | dict (m : List (String × RawRecord))
  | list (l : List RawRecord)
  | other
deriving Repr, DecidableEq

/-- What the single network call of a cycle produced, as distinguished
by the source: HTTP 200 with an application `code` and a `data` object,
HTTP 429, another HTTP status, or an exception
(transport/timeout/parse). -/
inductive FetchOutcome where
  | ok (code : Int) (dataObj : DataObj)
  | http429
  | httpOther (status : Nat)
  | exn
deriving Repr, DecidableEq

/-! ### Association-list primitives (Python dict operations) -/

/-- `d.get(k)` on a Python dict. -/
def alookup {α : Type} : List (String × α) → String → Option α
  | [], _ => none
  | (k, v) :: t, key => if k = key then some v else alookup t key

/-- `d[k] = v` on a Python dict: replace the entry if the key is
present, append otherwise. -/
def insertOrReplace {α : Type} : List (String × α) → String → α → List (String × α)
  | [], key, v => [(key, v)]
  | (k, w) :: t, key, v => if k = key then (key, v) :: t else (k, w) :: insertOrReplace t key v

/-- `d.pop(k, None)`'s effect on the mapping (under the unique-keys
invariant of dicts, removing every occurrence coincides with removing
the one occurrence). -/
def aerase {α : Type} : List (String × α) → String → List (String × α)
  | [], _ => []
  | (k, v) :: t, key => if k = key then aerase t key else (k, v) :: aerase t key

theorem alookup_insertOrReplace_self {α : Type} (l : List (String × α)) (k : String) (v : α) :
    alookup (insertOrReplace l k v) k = some v := by
  induction l with
  | nil => simp [insertOrReplace, alookup]
  | cons hd t ih =>
    obtain ⟨k', w⟩ := hd
    by_cases h : k' = k
    · simp [insertOrReplace, h, alookup]
    · simp [insertOrReplace, h, alookup, ih]

theorem alookup_insertOrReplace_ne {α : Type} (l : List (String × α)) (k j : String) (v : α)
    (h : k ≠ j) : alookup (insertOrReplace l k v) j = alookup l j := by
  induction l with
  | nil => simp [insertOrReplace, alookup, h]
  | cons hd t ih =>
    obtain ⟨k', w⟩ := hd
    by_cases hk : k' = k
    · subst hk
      simp [insertOrReplace, alookup, h]
    · simp [insertOrReplace, hk, alookup, ih]

theorem alookup_aerase_self {α : Type} (l : List (String × α)) (k : String) :
    alookup (aerase l k) k = none := by
  induction l with
  | nil => simp [aerase, alookup]
  | cons hd t ih =>
    obtain ⟨k', w⟩ := hd
    by_cases h : k' = k
    · simp [aerase, h, ih]
    · simp [aerase, h, alookup, ih]

theorem alookup_insertOrReplace_isSome {α : Type} (l : List (String × α)) (k j : String) (v : α)
    (h : (alookup (insertOrReplace l k v) j).isSome) :
    j = k ∨ (alookup l j).isSome := by
  by_cases hj : k = j
  · exact Or.inl hj.symm
  · right
    rwa [alookup_insertOrReplace_ne l k j v hj] at h

theorem length_insertOrReplace {α : Type} (l : List (String × α)) (k : String) (v : α)
    (h : (alookup l k).isSome) : (insertOrReplace l k v).length = l.length := by
  induction l with
  | nil => simp [alookup] at h
  | cons hd t ih =>
    obtain ⟨k', w⟩ := hd
    by_cases hk : k' = k
    · simp [insertOrReplace, hk]
    · simp only [alookup, hk, if_false] at h
      simp [insertOrReplace, hk, ih h]

/-! ### Batch Status Fetcher (`get_live_status_batch`, main.py 140–198) -/

/-- Normalise one raw record exactly as the source does:
`user_data.get("live_status", 0)` etc. -/
def normRecord (r : RawRecord) : LiveStatus :=
  ⟨r.live_status.getD 0, r.room_id.getD 0, r.title.getD "", r.uname.getD ""⟩

/-- The dict-shaped collection loop: for each requested uid, copy the
upstream record into the result map when present. -/
def collectDict : List String → List (String × RawRecord) →
    List (String × LiveStatus) → List (String × LiveStatus)
  | [], _, acc => acc
  | u :: t, m, acc =>
      collectDict t m
        (match alookup m u with
         | some r => insertOrReplace acc u (normRecord r)
         | none => acc)

/-- The list-shaped pre-pass: index the records by their uid-like field,
skipping records whose field is falsy; later records overwrite earlier
ones, as Python dict assignment does. -/
def buildByUid (l : List RawRecord) : List (String × RawRecord) :=
  l.foldl
    (fun acc e =>
      match e.uidField with
      | some s => if s = "" then acc else insertOrReplace acc s e
      | none => acc) []

/-- The `finally` block: fill a zero-value status for every requested
uid still missing from the result map. -/
def batchFill : List String → List (String × LiveStatus) → List (String × LiveStatus)
  | [], acc => acc
  | u :: t, acc =>
      batchFill t (if alookup acc u = none then acc ++ [(u, defaultStatus)] else acc)

/-- `get_live_status_batch(uids)` with the network call abstracted by
`outcome` and the prior `_last_rate_limited` flag threaded through;
returns the result map and the new flag.  The flag is cleared only on a
200/code-0 response, set on 429, and left untouched on every other
outcome — exactly the assignments of the source. -/
def get_live_status_batch (uids : List String) (outcome : FetchOutcome)
    (lastRateLimited : Bool) : List (String × LiveStatus) × Bool :=
  match outcome with
  | .ok code dataObj =>
      if code = 0 then
        let collected :=
          match dataObj with
          | .dict m => collectDict uids m []
          | .list l => collectDict uids (buildByUid l) []
          | .other => []
        (batchFill uids collected, false)
      else
        (batchFill uids [], lastRateLimited)
  | .http429 => (batchFill uids [], true)
  | .httpOther _ => (batchFill uids [], lastRateLimited)
  | .exn => (batchFill uids [], lastRateLimited)

/-- Outcomes on which the source trusts no part of the payload and
every requested uid receives the zero-value status: application-level
error code, HTTP 429, other HTTP failures, and exceptions. -/
def isErrorOutcome : FetchOutcome → Bool
  | .ok code _ => code ≠ 0
  | .http429 => true
  | .httpOther _ => true
  | .exn => true

theorem alookup_append_some {α : Type} (l l2 : List (String × α)) (k : String) (v : α)
    (h : alookup l k = some v) : alookup (l ++ l2) k = some v := by
  induction l with
  | nil => simp [alookup] at h
  | cons hd t ih =>
    obtain ⟨k', w⟩ := hd
    by_cases hk' : k' = k
    · simpa [List.cons_append, alookup, hk'] using (by simpa [alookup, hk'] using h)
    · simp only [alookup, hk', if_false] at h
      simpa [List.cons_append, alookup, hk'] using ih h

theorem alookup_append_none {α : Type} (l l2 : List (String × α)) (k : String)
    (h : alookup l k = none) : alookup (l ++ l2) k = alookup l2 k := by
  induction l with
  | nil => simp
  | cons hd t ih =>
    obtain ⟨k', w⟩ := hd
    by_cases hk' : k' = k
    · simp [alookup, hk'] at h
    · simp only [alookup, hk', if_false] at h
      simpa [List.cons_append, alookup, hk'] using ih h

theorem batchFill_preserves (uids : List String) (acc : List (String × LiveStatus))
    (k : String) (v : LiveStatus) (h : alookup acc k = some v) :
    alookup (batchFill uids acc) k = some v := by
  induction uids generalizing acc with
  | nil => simpa [batchFill] using h
  | cons u t ih =>
    simp only [batchFill]
    by_cases hu : alookup acc u = none
    · simp only [hu, if_true]
      exact ih _ (alookup_append_some acc [(u, defaultStatus)] k v h)
    · simp only [hu, if_false]
      exact ih acc h

theorem batchFill_covers (uids : List String) (acc : List (String × LiveStatus))
    (k : String) (hk : k ∈ uids) : (alookup (batchFill uids acc) k).isSome := by
  induction uids generalizing acc with
  | nil => simp at hk
  | cons u t ih =>
    simp only [batchFill]
    rcases List.mem_cons.mp hk with h | h
    · subst h
      by_cases hu : alookup acc k = none
      · simp only [hu, if_true]
        have hsome : alookup (acc ++ [(k, defaultStatus)]) k = some defaultStatus := by
          rw [alookup_append_none acc _ k hu]
          simp [alookup]
        rw [batchFill_preserves t _ k defaultStatus hsome]
        simp
      · rcases Option.ne_none_iff_exists'.mp hu with ⟨v, hv⟩
        simp only [hu, if_false]
        rw [batchFill_preserves t acc k v hv]
        simp
    · by_cases hu : alookup acc u = none <;> simp only [hu, if_true, if_false] <;> exact ih _ h

theorem batchFill_mem (uids : List String) (acc : List (String × LiveStatus)) (k : String)
    (h : (alookup (batchFill uids acc) k).isSome) :
    k ∈ uids ∨ (alookup acc k).isSome := by
  induction uids generalizing acc with
  | nil => exact Or.inr (by simpa [batchFill] using h)
  | cons u t ih =>
    simp only [batchFill] at h
    by_cases hu : alookup acc u = none
    · simp only [hu, if_true] at h
      rcases ih _ h with hmem | hacc
      · exact Or.inl (List.mem_cons_of_mem u hmem)
      · by_cases hk : u = k
        · exact Or.inl (by simp [hk])
        · right
          by_cases hacck : alookup acc k = none
          · rw [alookup_append_none acc _ k hacck] at hacc
            simp [alookup, hk] at hacc
          · exact Option.isSome_iff_ne_none.mpr hacck
    · simp only [hu, if_false] at h
      rcases ih _ h with hmem | hacc
      · exact Or.inl (List.mem_cons_of_mem u hmem)
      · exact Or.inr hacc

theorem batchFill_default (uids : List String) (acc : List (String × LiveStatus)) (k : String)
    (hk : k ∈ uids) (hacc : alookup acc k = none) :
    alookup (batchFill uids acc) k = some defaultStatus := by
  induction uids generalizing acc with
  | nil => simp at hk
  | cons u t ih =>
    simp only [batchFill]
    rcases List.mem_cons.mp hk with h | h
    · subst h
      simp only [hacc, if_true]
      apply batchFill_preserves
      rw [alookup_append_none acc _ k hacc]
      simp [alookup]
    · by_cases hu : alookup acc u = none
      · simp only [hu, if_true]
        by_cases hk' : u = k
        · subst hk'
          apply batchFill_preserves
          rw [alookup_append_none acc _ u hacc]
          simp [alookup]
        · apply ih _ h
          rw [alookup_append_none acc _ k hacc]
          simp [alookup, hk']
      · simp only [hu, if_false]
        exact ih acc h hacc

theorem collectDict_mem (uids : List String) (m : List (String × RawRecord))
    (acc : List (String × LiveStatus)) (k : String)
    (h : (alookup (collectDict uids m acc) k).isSome) :
    k ∈ uids ∨ (alookup acc k).isSome := by
  induction uids generalizing acc with
  | nil => exact Or.inr (by simpa [collectDict] using h)
  | cons u t ih =>
    simp only [collectDict] at h
    cases hm : alookup m u with
    | none =>
        rw [hm] at h
        rcases ih _ h with hmem | hacc
        · exact Or.inl (List.mem_cons_of_mem u hmem)
        · exact Or.inr hacc
    | some r =>
        rw [hm] at h
        rcases ih _ h with hmem | hacc
        · exact Or.inl (List.mem_cons_of_mem u hmem)
        · rcases alookup_insertOrReplace_isSome acc u k (normRecord r) hacc with hk | hk
          · exact Or.inl (by simp [hk])
          · exact Or.inr hk

/-! ### Single lookup (`get_live_status`, main.py 121–138) -/

/-- `get_live_status(uid)`: delegate to the batch call for `[uid]`;
return the entry when present, the zero-value fallback otherwise (the
source also reaches the fallback when an exception escapes the batch
call, which the total embedding has no case for). -/
def get_live_status (uid : String) (outcome : FetchOutcome)
    (lastRateLimited : Bool) : LiveStatus × Bool :=
  let r := get_live_status_batch [uid] outcome lastRateLimited
  match alookup r.1 uid with
  | some s => (s, r.2)
  | none => (defaultStatus, r.2)

/-! ### Registry entry and notification dispatch (main.py 272–310) -/

/-- One entry of `monitored_uids`. -/
structure MonitorEntry where
  uname : String
  room_id : Nat
  added_by : String
  added_time : Nat
  unified_msg_origin : Option String
deriving Repr, DecidableEq

/-- The two global feature flags. -/
structure Flags where
  enable_notifications : Bool
  enable_end_notifications : Bool
deriving Repr, DecidableEq

/-- What one dispatcher call did.  The source wraps the whole body in
`try/except` and logs any failure, so the embedding is a total
function: `deliveryFailed` is the swallowed-exception path, and no
constructor represents a propagating error. -/
inductive NotifyResult where
  | disabled
  | noTarget
  | sent (target : String) (message : String)
  | deliveryFailed
deriving Repr, DecidableEq

/-- `status_info.get(field, default)` where `cs = none` stands for the
synthetic `{"live_status": 0}` dict used for identifiers missing from
the status map (every key except `live_status` is absent there). -/
def dictGet {α : Type} (cs : Option LiveStatus) (f : LiveStatus → α) (dflt : α) : α :=
  match cs with
  | some s => f s
  | none => dflt

/-- `send_live_notification`: gated on the global flag, composes the
message, and requires a `unified_msg_origin`; `deliveryOk = false`
models `context.send_message` raising, which the source logs and
swallows. -/
def send_live_notification (enableNotifications : Bool) (deliveryOk : Bool)
    (cs : Option LiveStatus) (info : MonitorEntry) : NotifyResult :=
  if ¬ enableNotifications then .disabled
  else
    let uname := dictGet cs LiveStatus.uname "未知UP主"
    let title := dictGet cs LiveStatus.title "无标题"
    let roomId := dictGet cs LiveStatus.room_id 0
    let message := "🔴 " ++ uname ++ " 开播啦！\n📺 直播标题: " ++ title ++
      "\n🔗 直播间: https://live.bilibili.com/" ++ toString roomId
    match info.unified_msg_origin with
    | some t => if deliveryOk then .sent t message else .deliveryFailed
    | none => .noTarget

/-- `send_end_notification`: gated on both flags. -/
def send_end_notification (fl : Flags) (deliveryOk : Bool)
    (cs : Option LiveStatus) (info : MonitorEntry) : NotifyResult :=
  if ¬ fl.enable_notifications ∨ ¬ fl.enable_end_notifications then .disabled
  else
    let uname := dictGet cs LiveStatus.uname "未知UP主"
    let message := "⚫ " ++ uname ++ " 已结束直播"
    match info.unified_msg_origin with
    | some t => if deliveryOk then .sent t message else .deliveryFailed
    | none => .noTarget

/-! ### Per-identifier cycle body (main.py 216–243) -/

/-- The three per-identifier mutable maps of the plugin. -/
structure PollState where
  live_status_cache : List (String × Nat)
  uid_error_counts : List (String × Nat)
  uid_skip_until : List (String × Nat)
deriving Repr, DecidableEq

/-- `[uid for uid in monitored_copy.keys() if uid_skip_until.get(uid, 0) <= now]`. -/
def eligibleUids (monitored : List (String × MonitorEntry))
    (skipUntil : List (String × Nat)) (now : Nat) : List String :=
  (monitored.map Prod.fst).filter (fun uid => decide ((alookup skipUntil uid).getD 0 ≤ now))

/-- The body of the `for uid, info in monitored_copy.items()` loop for
one identifier: transition detection against the cache, the two
dispatcher calls, the cache update, then the empty-status backoff
bookkeeping.  Returns the new state, the went-live dispatch (if the
edge fired) and the went-offline dispatch (if that edge fired). -/
def processUid (fl : Flags) (deliveryOk : Bool) (now : Nat)
    (statusMap : List (String × LiveStatus)) (st : PollState)
    (uid : String) (info : MonitorEntry) :
    PollState × Option NotifyResult × Option NotifyResult :=
  let cs : Option LiveStatus := alookup statusMap uid
  let curLive : Nat := dictGet cs LiveStatus.live_status 0
  let prev : Nat := (alookup st.live_status_cache uid).getD 0
  let evLive : Option NotifyResult :=
    if curLive = 1 ∧ prev ≠ 1 then some (send_live_notification fl.enable_notifications deliveryOk cs info)
    else none
  let evOff : Option NotifyResult :=
    if prev = 1 ∧ curLive ≠ 1 then some (send_end_notification fl deliveryOk cs info)
    else none
  let cache2 := insertOrReplace st.live_status_cache uid curLive
  let unameV : String := dictGet cs LiveStatus.uname ""
  let roomV : Nat := dictGet cs LiveStatus.room_id 0
  if unameV = "" ∧ roomV = 0 then
    let cnt := (alookup st.uid_error_counts uid).getD 0 + 1
    (⟨cache2, insertOrReplace st.uid_error_counts uid cnt,
      insertOrReplace st.uid_skip_until uid (now + min 300 (30 * cnt))⟩, evLive, evOff)
  else
    (⟨cache2, aerase st.uid_error_counts uid, aerase st.uid_skip_until uid⟩, evLive, evOff)

/-! ### Adaptive interval and cycle-failure handling (main.py 200–270) -/

/-- The end-of-cycle interval adjustment: doubling clamped to
`[base, 300]` under rate limiting, three-quarters decay floored at
`base` otherwise.  `c * 3 / 4` is exactly the source's
`int(c * 0.75)` for the integer intervals involved. -/
def intervalUpdate (base : Nat) (rateLimited : Bool) (c : Nat) : Nat :=
  if rateLimited then min 300 (max base (c * 2)) else max base (c * 3 / 4)

/-- `current_interval` after a sequence of per-cycle rate-limit
signals, starting from the configured base interval. -/
def runIntervals (base : Nat) (signals : List Bool) : Nat :=
  signals.foldl (fun c s => intervalUpdate base s c) base

/-- How one iteration of the `while True` loop ended. -/
inductive CycleOutcome where
  | success
  | failure
  | cancelled
deriving Repr, DecidableEq

/-- What the loop does next. -/
inductive LoopAction where
  | sleepRetry (duration : Nat)
  | stop
deriving Repr, DecidableEq

/-- The failure-containment skeleton of `monitor_live_status`: a
successful cycle resets `consecutive_errors` and sleeps the current
interval; `CancelledError` breaks the loop; any other exception
increments the counter and sleeps either the backoff
`min(300, 60 * n)` (at/above the threshold of 5) or the current
interval. -/
def monitorStep (currentInterval : Nat) (consecutiveErrors : Nat)
    (outcome : CycleOutcome) : Nat × LoopAction :=
  match outcome with
  | .success => (0, .sleepRetry currentInterval)
  | .cancelled => (consecutiveErrors, .stop)
  | .failure =>
      let n := consecutiveErrors + 1
      if 5 ≤ n then (n, .sleepRetry (min 300 (60 * n)))
      else (n, .sleepRetry currentInterval)

/-! ### Registry add (`add_monitor`, main.py 312–356) -/

/-- How the add command ended. -/
inductive AddOutcome where
  | usage
  | notDigit
  | capReached
  | notFound
  | added
deriving Repr, DecidableEq

/-- Result of the add command: outcome plus the (possibly updated)
registry and status cache. -/
structure AddResult where
  outcome : AddOutcome
  monitored : List (String × MonitorEntry)
  cache : List (String × Nat)
deriving Repr, DecidableEq

/-- `add_monitor`, from the parsed command words on: argument-count and
digit validation, the size cap, the existence probe via
`get_live_status`, then unconditional insertion of a fresh entry
(there is no membership check before the assignment). -/
def add_monitor (monitored : List (String × MonitorEntry)) (cache : List (String × Nat))
    (maxMonitors : Nat) (args : List String) (outcome : FetchOutcome)
    (lastRateLimited : Bool) (sender : String) (now : Nat)
    (origin : Option String) : AddResult :=
  if args.length < 2 then ⟨.usage, monitored, cache⟩
  else
    let uid := args.getD 1 ""
    if ¬ (uid ≠ "" ∧ uid.toList.all Char.isDigit) then ⟨.notDigit, monitored, cache⟩
    else if maxMonitors ≤ monitored.length then ⟨.capReached, monitored, cache⟩
    else
      let statusInfo := (get_live_status uid outcome lastRateLimited).1
      if statusInfo.uname = "" then ⟨.notFound, monitored, cache⟩
      else
        ⟨.added,
         insertOrReplace monitored uid
           ⟨statusInfo.uname, statusInfo.room_id, sender, now, origin⟩,
         insertOrReplace cache uid statusInfo.live_status⟩

/-! ### Shared facts about the batch fetcher's key set -/

theorem batch_covers (uids : List String) (outcome : FetchOutcome) (rl : Bool)
    (u : String) (hu : u ∈ uids) :
    (alookup (get_live_status_batch uids outcome rl).1 u).isSome := by
  cases outcome with
  | ok code dataObj =>
      by_cases hc : code = 0
      · cases dataObj <;> simp only [get_live_status_batch, hc, if_true] <;>
          exact batchFill_covers _ _ _ hu
      · simp only [get_live_status_batch, hc, if_false]
        exact batchFill_covers _ _ _ hu
  | http429 => exact batchFill_covers _ _ _ hu
  | httpOther s => exact batchFill_covers _ _ _ hu
  | exn => exact batchFill_covers _ _ _ hu

theorem batch_mem (uids : List String) (outcome : FetchOutcome) (rl : Bool)
    (u : String) (h : (alookup (get_live_status_batch uids outcome rl).1 u).isSome) :
    u ∈ uids := by
  have empty_acc : ¬ (alookup ([] : List (String × LiveStatus)) u).isSome := by
    simp [alookup]
  cases outcome with
  | ok code dataObj =>
      by_cases hc : code = 0
      · cases dataObj with
        | dict m =>
            simp only [get_live_status_batch, hc, if_true] at h
            rcases batchFill_mem _ _ _ h with hm | hm
            · exact hm
            · rcases collectDict_mem _ _ _ _ hm with hm2 | hm2
              · exact hm2
              · exact absurd hm2 empty_acc
        | list l =>
            simp only [get_live_status_batch, hc, if_true] at h
            rcases batchFill_mem _ _ _ h with hm | hm
            · exact hm
            · rcases collectDict_mem _ _ _ _ hm with hm2 | hm2
              · exact hm2
              · exact absurd hm2 empty_acc
        | other =>
            simp only [get_live_status_batch, hc, if_true] at h
            rcases batchFill_mem _ _ _ h with hm | hm
            · exact hm
            · exact absurd hm empty_acc
      · simp only [get_live_status_batch, hc, if_false] at h
        rcases batchFill_mem _ _ _ h with hm | hm
        · exact hm
        · exact absurd hm empty_acc
  | http429 =>
      rcases batchFill_mem _ _ _ h with hm | hm
      · exact hm
      · exact absurd hm empty_acc
  | httpOther s =>
      rcases batchFill_mem _ _ _ h with hm | hm
      · exact hm
      · exact absurd hm empty_acc
  | exn =>
      rcases batchFill_mem _ _ _ h with hm | hm
      · exact hm
      · exact absurd hm empty_acc

/-- C1: for every non-empty list of requested identifiers,
`get_live_status_batch` returns a mapping whose key set equals exactly
the requested key set, and on any transport/timeout/parse or
application-level error every requested identifier is mapped to the
zero-value status `{live_status: 0, room_id: 0, title: "", uname: ""}`
(the function is total, so nothing raises past it). -/
theorem batch_keyset_and_fallback (uids : List String) (hne : uids ≠ [])
    (outcome : FetchOutcome) (rl : Bool) :
    (∀ u, (alookup (get_live_status_batch uids outcome rl).1 u).isSome = true ↔ u ∈ uids)
    ∧ (isErrorOutcome outcome = true →
        ∀ u ∈ uids, alookup (get_live_status_batch uids outcome rl).1 u = some defaultStatus) := by
  constructor
  · intro u
    exact ⟨batch_mem uids outcome rl u, batch_covers uids outcome rl u⟩
  · intro herr u hu
    have hnil : alookup ([] : List (String × LiveStatus)) u = none := by simp [alookup]
    cases outcome with
    | ok code dataObj =>
        have hc : ¬ code = 0 := by
          intro h0
          rw [h0] at herr
          simp [isErrorOutcome] at herr
        simp only [get_live_status_batch, hc, if_false]
        exact batchFill_default _ _ _ hu hnil
    | http429 => exact batchFill_default _ _ _ hu hnil
    | httpOther s => exact batchFill_default _ _ _ hu hnil
    | exn => exact batchFill_default _ _ _ hu hnil

theorem batch_keyset_and_fallback_witness :
    alookup (get_live_status_batch ["1"] FetchOutcome.exn false).1 "1" = some defaultStatus :=
  (batch_keyset_and_fallback ["1"] (by decide) FetchOutcome.exn false).2 rfl "1" (by simp)

/-- C9: the single lookup `get_live_status(uid)` returns exactly the
batch result's entry for `uid`; since that entry always exists, the
single lookup's own zero-value fallback branch is never taken. -/
theorem single_lookup_refines_batch (uid : String) (outcome : FetchOutcome) (rl : Bool) :
    alookup (get_live_status_batch [uid] outcome rl).1 uid
      = some (get_live_status uid outcome rl).1 := by
  obtain ⟨s, hs⟩ := Option.isSome_iff_exists.mp
    (batch_covers [uid] outcome rl uid (by simp))
  simp [get_live_status, hs]

/-- C5 counterexample: after a 429 sets the rate-limited signal, a
following cycle whose fetch does not return 429 (here: a transport
exception) still observes the signal as `true` — the flag is only
cleared by a successful response, so it persists by itself. -/
theorem rate_limit_flag_persists :
    (get_live_status_batch ["1"] FetchOutcome.exn
        (get_live_status_batch ["1"] FetchOutcome.http429 false).2).2 = true := rfl

/-- C5 (amended): the rate-limited signal is set by HTTP 429 and
cleared only by a successful fetch (HTTP 200 with application code 0);
on every other outcome — application error code, other HTTP status,
exception — the previous signal persists unchanged, so a non-429 cycle
sees `false` only if the signal was not pending or its fetch succeeded. -/
theorem rate_limit_flag_semantics (uids : List String) (rl : Bool) :
    ((get_live_status_batch uids FetchOutcome.http429 rl).2 = true)
    ∧ (∀ d, (get_live_status_batch uids (FetchOutcome.ok 0 d) rl).2 = false)
    ∧ (∀ code d, code ≠ 0 → (get_live_status_batch uids (FetchOutcome.ok code d) rl).2 = rl)
    ∧ (∀ s, (get_live_status_batch uids (FetchOutcome.httpOther s) rl).2 = rl)
    ∧ ((get_live_status_batch uids FetchOutcome.exn rl).2 = rl) := by
  refine ⟨rfl, fun d => by simp [get_live_status_batch], fun code d hc => ?_, fun s => rfl, rfl⟩
  simp [get_live_status_batch, hc]

theorem rate_limit_flag_semantics_witness :
    (get_live_status_batch ["1"] (FetchOutcome.ok 5 DataObj.other) true).2 = true :=
  (rate_limit_flag_semantics ["1"] true).2.2.1 5 DataObj.other (by decide)

/-! ### Shared facts about the per-identifier cycle body -/

theorem processUid_snd (fl : Flags) (dOk : Bool) (now : Nat)
    (sm : List (String × LiveStatus)) (st : PollState) (uid : String) (info : MonitorEntry) :
    (processUid fl dOk now sm st uid info).2 =
      (if dictGet (alookup sm uid) LiveStatus.live_status 0 = 1
          ∧ (alookup st.live_status_cache uid).getD 0 ≠ 1
        then some (send_live_notification fl.enable_notifications dOk (alookup sm uid) info)
        else none,
       if (alookup st.live_status_cache uid).getD 0 = 1
          ∧ dictGet (alookup sm uid) LiveStatus.live_status 0 ≠ 1
        then some (send_end_notification fl dOk (alookup sm uid) info)
        else none) := by
  by_cases h : dictGet (alookup sm uid) LiveStatus.uname "" = ""
      ∧ dictGet (alookup sm uid) LiveStatus.room_id 0 = 0 <;>
    simp [processUid, h]

theorem processUid_cacheVal (fl : Flags) (dOk : Bool) (now : Nat)
    (sm : List (String × LiveStatus)) (st : PollState) (uid : String) (info : MonitorEntry) :
    alookup (processUid fl dOk now sm st uid info).1.live_status_cache uid
      = some (dictGet (alookup sm uid) LiveStatus.live_status 0) := by
  by_cases h : dictGet (alookup sm uid) LiveStatus.uname "" = ""
      ∧ dictGet (alookup sm uid) LiveStatus.room_id 0 = 0 <;>
    simp [processUid, h, alookup_insertOrReplace_self]

/-- C2: the went-live dispatch fires iff the new `live_status` is 1 and
the cached previous state is not 1; the went-offline dispatch fires iff
the cached previous state is 1 and the new `live_status` is not 1; the
cache is then set to the new value, so in a following cycle sustained
LIVE or sustained not-LIVE fires nothing. -/
theorem transition_edges (fl : Flags) (dOk : Bool) (now now2 : Nat)
    (sm sm2 : List (String × LiveStatus)) (st : PollState) (uid : String) (info : MonitorEntry) :
    ((processUid fl dOk now sm st uid info).2.1.isSome = true ↔
        (dictGet (alookup sm uid) LiveStatus.live_status 0 = 1
         ∧ (alookup st.live_status_cache uid).getD 0 ≠ 1))
    ∧ ((processUid fl dOk now sm st uid info).2.2.isSome = true ↔
        ((alookup st.live_status_cache uid).getD 0 = 1
         ∧ dictGet (alookup sm uid) LiveStatus.live_status 0 ≠ 1))
    ∧ (alookup (processUid fl dOk now sm st uid info).1.live_status_cache uid
        = some (dictGet (alookup sm uid) LiveStatus.live_status 0))
    ∧ (dictGet (alookup sm uid) LiveStatus.live_status 0 = 1 →
        dictGet (alookup sm2 uid) LiveStatus.live_status 0 = 1 →
        (processUid fl dOk now2 sm2 (processUid fl dOk now sm st uid info).1 uid info).2.1 = none
        ∧ (processUid fl dOk now2 sm2 (processUid fl dOk now sm st uid info).1 uid info).2.2 = none)
    ∧ (dictGet (alookup sm uid) LiveStatus.live_status 0 ≠ 1 →
        dictGet (alookup sm2 uid) LiveStatus.live_status 0 ≠ 1 →
        (processUid fl dOk now2 sm2 (processUid fl dOk now sm st uid info).1 uid info).2.1 = none
        ∧ (processUid fl dOk now2 sm2 (processUid fl dOk now sm st uid info).1 uid info).2.2 = none) := by
  have hsnd := processUid_snd fl dOk now sm st uid info
  have hcache := processUid_cacheVal fl dOk now sm st uid info
  have hsnd2 := processUid_snd fl dOk now2 sm2 (processUid fl dOk now sm st uid info).1 uid info
  refine ⟨?_, ?_, hcache, ?_, ?_⟩
  · rw [show (processUid fl dOk now sm st uid info).2.1 = _ from congrArg Prod.fst hsnd]
    split <;> simp_all
  · rw [show (processUid fl dOk now sm st uid info).2.2 = _ from congrArg Prod.snd hsnd]
    split <;> simp_all
  · intro h1 h2
    rw [show (processUid fl dOk now2 sm2 (processUid fl dOk now sm st uid info).1 uid info).2.1
          = _ from congrArg Prod.fst hsnd2,
        show (processUid fl dOk now2 sm2 (processUid fl dOk now sm st uid info).1 uid info).2.2
          = _ from congrArg Prod.snd hsnd2]
    rw [hcache] at hsnd2 ⊢
    constructor <;> · split <;> simp_all
  · intro h1 h2
    rw [show (processUid fl dOk now2 sm2 (processUid fl dOk now sm st uid info).1 uid info).2.1
          = _ from congrArg Prod.fst hsnd2,
        show (processUid fl dOk now2 sm2 (processUid fl dOk now sm st uid info).1 uid info).2.2
          = _ from congrArg Prod.snd hsnd2]
    rw [hcache] at hsnd2 ⊢
    constructor <;> · split <;> simp_all

theorem transition_edges_witness :
    (processUid ⟨true, true⟩ true 0 [("1", ⟨1, 9, "t", "n"⟩)] ⟨[], [], []⟩ "1"
        ⟨"n", 9, "adder", 0, some "tgt"⟩).2.1.isSome = true :=
  (transition_edges ⟨true, true⟩ true 0 0 [("1", ⟨1, 9, "t", "n"⟩)] []
      ⟨[], [], []⟩ "1" ⟨"n", 9, "adder", 0, some "tgt"⟩).1.mpr (by decide)

/-- C3: when the processed status is empty (blank `uname` and
`room_id = 0`) the consecutive-empty count is incremented and the skip
deadline becomes `now + min(300, 30 * count)`; when it is non-empty
both the count and the deadline are removed entirely. -/
theorem backoff_record_update (fl : Flags) (dOk : Bool) (now : Nat)
    (sm : List (String × LiveStatus)) (st : PollState) (uid : String) (info : MonitorEntry) :
    ((dictGet (alookup sm uid) LiveStatus.uname "" = ""
        ∧ dictGet (alookup sm uid) LiveStatus.room_id 0 = 0) →
      alookup (processUid fl dOk now sm st uid info).1.uid_error_counts uid
          = some ((alookup st.uid_error_counts uid).getD 0 + 1)
      ∧ alookup (processUid fl dOk now sm st uid info).1.uid_skip_until uid
          = some (now + min 300 (30 * ((alookup st.uid_error_counts uid).getD 0 + 1))))
    ∧ (¬ (dictGet (alookup sm uid) LiveStatus.uname "" = ""
        ∧ dictGet (alookup sm uid) LiveStatus.room_id 0 = 0) →
      alookup (processUid fl dOk now sm st uid info).1.uid_error_counts uid = none
      ∧ alookup (processUid fl dOk now sm st uid info).1.uid_skip_until uid = none) := by
  constructor
  · intro h
    simp [processUid, h, alookup_insertOrReplace_self]
  · intro h
    simp [processUid, h, alookup_aerase_self]

theorem backoff_record_update_witness :
    alookup (processUid ⟨true, true⟩ true 7 [] ⟨[], [("1", 2)], [("1", 5)]⟩ "1"
        ⟨"n", 9, "adder", 0, some "tgt"⟩).1.uid_error_counts "1" = some 3
    ∧ alookup (processUid ⟨true, true⟩ true 7 [] ⟨[], [("1", 2)], [("1", 5)]⟩ "1"
        ⟨"n", 9, "adder", 0, some "tgt"⟩).1.uid_skip_until "1" = some 97 := by
  have h := (backoff_record_update ⟨true, true⟩ true 7 [] ⟨[], [("1", 2)], [("1", 5)]⟩ "1"
    ⟨"n", 9, "adder", 0, some "tgt"⟩).1 (by decide)
  constructor
  · rw [h.1]
    rfl
  · rw [h.2]
    rfl

/-- C10: an identifier whose skip deadline has not yet passed is
excluded from the batch fetch, yet the per-identifier loop still
processes it with the synthetic `{"live_status": 0}` default: its cache
entry is overwritten to 0 — dispatching a went-offline notification
exactly when the cached state was 1 — its consecutive-empty count is
incremented, and its skip deadline is re-armed to
`now + min(300, 30 * count)`, all without any fetch for it. -/
theorem skipped_uid_processing (fl : Flags) (dOk : Bool) (now : Nat)
    (monitored : List (String × MonitorEntry)) (st : PollState)
    (outcome : FetchOutcome) (rl : Bool) (uid : String) (info : MonitorEntry)
    (hmem : uid ∈ monitored.map Prod.fst)
    (hskip : now < (alookup st.uid_skip_until uid).getD 0) :
    (uid ∉ eligibleUids monitored st.uid_skip_until now)
    ∧ (alookup (get_live_status_batch (eligibleUids monitored st.uid_skip_until now)
          outcome rl).1 uid = none)
    ∧ (alookup (processUid fl dOk now
          (get_live_status_batch (eligibleUids monitored st.uid_skip_until now) outcome rl).1
          st uid info).1.live_status_cache uid = some 0)
    ∧ ((processUid fl dOk now
          (get_live_status_batch (eligibleUids monitored st.uid_skip_until now) outcome rl).1
          st uid info).2.1 = none)
    ∧ ((processUid fl dOk now
          (get_live_status_batch (eligibleUids monitored st.uid_skip_until now) outcome rl).1
          st uid info).2.2.isSome = true ↔ (alookup st.live_status_cache uid).getD 0 = 1)
    ∧ (alookup (processUid fl dOk now
          (get_live_status_batch (eligibleUids monitored st.uid_skip_until now) outcome rl).1
          st uid info).1.uid_error_counts uid
        = some ((alookup st.uid_error_counts uid).getD 0 + 1))
    ∧ (alookup (processUid fl dOk now
          (get_live_status_batch (eligibleUids monitored st.uid_skip_until now) outcome rl).1
          st uid info).1.uid_skip_until uid
        = some (now + min 300 (30 * ((alookup st.uid_error_counts uid).getD 0 + 1)))) := by
  have hnotel : uid ∉ eligibleUids monitored st.uid_skip_until now := by
    intro hel
    rcases List.mem_filter.mp hel with ⟨-, hp⟩
    rw [decide_eq_true_eq] at hp
    omega
  have hnone : alookup (get_live_status_batch (eligibleUids monitored st.uid_skip_until now)
      outcome rl).1 uid = none := by
    by_cases hs : (alookup (get_live_status_batch
        (eligibleUids monitored st.uid_skip_until now) outcome rl).1 uid).isSome
    · exact absurd (batch_mem _ outcome rl uid hs) hnotel
    · exact Option.not_isSome_iff_eq_none.mp hs
  have hcache := processUid_cacheVal fl dOk now
    (get_live_status_batch (eligibleUids monitored st.uid_skip_until now) outcome rl).1
    st uid info
  have hsnd := processUid_snd fl dOk now
    (get_live_status_batch (eligibleUids monitored st.uid_skip_until now) outcome rl).1
    st uid info
  rw [hnone] at hcache hsnd
  have hback := (backoff_record_update fl dOk now
    (get_live_status_batch (eligibleUids monitored st.uid_skip_until now) outcome rl).1
    st uid info).1
  rw [hnone] at hback
  have hback2 := hback (by exact ⟨rfl, rfl⟩)
  refine ⟨hnotel, hnone, by simpa [dictGet] using hcache, ?_, ?_, hback2.1, hback2.2⟩
  · rw [show (processUid fl dOk now
        (get_live_status_batch (eligibleUids monitored st.uid_skip_until now) outcome rl).1
        st uid info).2.1 = _ from congrArg Prod.fst hsnd]
    simp [dictGet]
  · rw [show (processUid fl dOk now
        (get_live_status_batch (eligibleUids monitored st.uid_skip_until now) outcome rl).1
        st uid info).2.2 = _ from congrArg Prod.snd hsnd]
    split <;> simp_all [dictGet]

theorem skipped_uid_processing_witness :
    alookup (processUid ⟨true, true⟩ true 50
        (get_live_status_batch
          (eligibleUids [("1", ⟨"n", 9, "adder", 0, some "tgt"⟩)] [("1", 100)] 50)
          FetchOutcome.exn false).1
        ⟨[("1", 1)], [("1", 2)], [("1", 100)]⟩ "1"
        ⟨"n", 9, "adder", 0, some "tgt"⟩).1.uid_skip_until "1" = some 140 := by
  have h := (skipped_uid_processing ⟨true, true⟩ true 50
    [("1", ⟨"n", 9, "adder", 0, some "tgt"⟩)] ⟨[("1", 1)], [("1", 2)], [("1", 100)]⟩
    FetchOutcome.exn false "1" ⟨"n", 9, "adder", 0, some "tgt"⟩
    (by simp) (by simp [alookup])).2.2.2.2.2.2
  rw [h]
  rfl

/-! ### Interval controller and loop failure containment -/

theorem intervalUpdate_bounds (base : Nat) (hb : base ≤ 300) (s : Bool) (c : Nat)
    (h1 : base ≤ c) (h2 : c ≤ 300) :
    base ≤ intervalUpdate base s c ∧ intervalUpdate base s c ≤ 300 := by
  cases s with
  | false =>
      simp only [intervalUpdate, if_false, Bool.false_eq_true]
      have hd : c * 3 / 4 ≤ c := by
        have : c * 3 / 4 ≤ c * 3 / 3 := Nat.div_le_div_left (by omega) (by omega)
        omega
      omega
  | true =>
      simp only [intervalUpdate, if_true]
      omega

/-- C4: starting from the configured base interval, for every sequence
of per-cycle rate-limit signals the interval stays within
`[base, 300]` after every cycle (double-and-clamp when limited,
three-quarters decay floored at the base otherwise). -/
theorem interval_stays_bounded (base : Nat) (hb : base ≤ 300) (signals : List Bool) :
    base ≤ runIntervals base signals ∧ runIntervals base signals ≤ 300 := by
  suffices H : ∀ c, base ≤ c → c ≤ 300 →
      base ≤ signals.foldl (fun c s => intervalUpdate base s c) c
      ∧ signals.foldl (fun c s => intervalUpdate base s c) c ≤ 300 from
    H base le_rfl hb
  induction signals with
  | nil => intro c h1 h2; exact ⟨h1, h2⟩
  | cons s t ih =>
      intro c h1 h2
      obtain ⟨g1, g2⟩ := intervalUpdate_bounds base hb s c h1 h2
      exact ih (intervalUpdate base s c) g1 g2

theorem interval_stays_bounded_witness :
    60 ≤ runIntervals 60 [true, true, false] ∧ runIntervals 60 [true, true, false] ≤ 300 :=
  interval_stays_bounded 60 (by decide) [true, true, false]

/-- C7: an unhandled cycle exception increments the consecutive-failure
counter; below the threshold of 5 the loop sleeps the current interval
and retries, at or above it the loop sleeps `min(300, 60 * counter)`
and retries; a successful cycle resets the counter to zero; and the
only way the loop stops is cancellation. -/
theorem cycle_failure_containment (ci ce : Nat) (o : CycleOutcome) :
    ((monitorStep ci ce o).2 = LoopAction.stop ↔ o = CycleOutcome.cancelled)
    ∧ (o = CycleOutcome.failure →
        (monitorStep ci ce o).1 = ce + 1
        ∧ (ce + 1 < 5 → (monitorStep ci ce o).2 = LoopAction.sleepRetry ci)
        ∧ (5 ≤ ce + 1 →
            (monitorStep ci ce o).2 = LoopAction.sleepRetry (min 300 (60 * (ce + 1)))))
    ∧ (o = CycleOutcome.success →
        (monitorStep ci ce o).1 = 0 ∧ (monitorStep ci ce o).2 = LoopAction.sleepRetry ci) := by
  cases o with
  | success => simp [monitorStep]
  | cancelled => simp [monitorStep]
  | failure =>
      by_cases hn : 5 ≤ ce + 1
      · exact ⟨by simp [monitorStep, hn], fun _ =>
          ⟨by simp [monitorStep, hn], fun hlt => by omega, fun _ => by simp [monitorStep, hn]⟩,
          fun h => by simp at h⟩
      · exact ⟨by simp [monitorStep, hn], fun _ =>
          ⟨by simp [monitorStep, hn], fun _ => by simp [monitorStep, hn], fun hge => by omega⟩,
          fun h => by simp at h⟩

theorem cycle_failure_containment_witness :
    (monitorStep 60 4 CycleOutcome.failure).2
      = LoopAction.sleepRetry (min 300 (60 * (4 + 1))) :=
  ((cycle_failure_containment 60 4 CycleOutcome.failure).2.1 rfl).2.2 (by decide)

/-! ### Notification gating -/

/-- C8: a went-live message is handed to the channel iff the global
notifications flag is true, the entry's `unified_msg_origin` is set and
delivery does not fail; a went-offline message additionally requires
the end-notifications flag; a failing delivery ends in the swallowed
`deliveryFailed` result (the dispatcher is a total function — nothing
propagates); and the cycle's cache/backoff state after `processUid` is
identical whether delivery succeeds or fails. -/
theorem notification_gating :
    (∀ en dOk cs info, (∃ t m, send_live_notification en dOk cs info = NotifyResult.sent t m)
        ↔ (en = true ∧ dOk = true ∧ info.unified_msg_origin.isSome = true))
    ∧ (∀ fl dOk cs info, (∃ t m, send_end_notification fl dOk cs info = NotifyResult.sent t m)
        ↔ (fl.enable_notifications = true ∧ fl.enable_end_notifications = true
           ∧ dOk = true ∧ info.unified_msg_origin.isSome = true))
    ∧ (∀ en cs info t, info.unified_msg_origin = some t → en = true →
        send_live_notification en false cs info = NotifyResult.deliveryFailed)
    ∧ (∀ fl cs info t, info.unified_msg_origin = some t →
        fl.enable_notifications = true → fl.enable_end_notifications = true →
        send_end_notification fl false cs info = NotifyResult.deliveryFailed)
    ∧ (∀ fl now sm st uid info,
        (processUid fl false now sm st uid info).1 = (processUid fl true now sm st uid info).1) := by
  refine ⟨?_, ?_, ?_, ?_, ?_⟩
  · intro en dOk cs info
    cases en <;> cases dOk <;> cases ho : info.unified_msg_origin <;>
      simp [send_live_notification, ho]
  · intro fl dOk cs info
    obtain ⟨en, ee⟩ := fl
    cases en <;> cases ee <;> cases dOk <;> cases ho : info.unified_msg_origin <;>
      simp [send_end_notification, ho]
  · intro en cs info t ho hen
    subst hen
    simp [send_live_notification, ho]
  · intro fl cs info t ho h1 h2
    simp [send_end_notification, ho, h1, h2]
  · intro fl now sm st uid info
    by_cases h : dictGet (alookup sm uid) LiveStatus.uname "" = ""
        ∧ dictGet (alookup sm uid) LiveStatus.room_id 0 = 0 <;>
      simp [processUid, h]

theorem notification_gating_witness :
    ∃ t m, send_live_notification true true (some ⟨1, 9, "t", "n"⟩)
        ⟨"n", 9, "adder", 0, some "tgt"⟩ = NotifyResult.sent t m :=
  (notification_gating.1 true true (some ⟨1, 9, "t", "n"⟩)
    ⟨"n", 9, "adder", 0, some "tgt"⟩).mpr (by simp)

/-! ### Registry add -/

/-- C6 counterexample: re-adding an already-tracked identifier is not a
no-op error — `add_monitor` has no membership check, so the command
succeeds and overwrites the existing entry, replacing its
`added_time` 10 (and `added_by`, notify target) with fresh values. -/
theorem readd_overwrites_entry :
    (add_monitor [("1", ⟨"Alice", 7, "bob", 10, some "tgt"⟩)] [] 50 ["添加监控", "1"]
        (FetchOutcome.ok 0 (DataObj.dict [("1", ⟨some 1, some 7, some "t", some "Alice", none⟩)]))
        false "carol" 20 (some "tgt2")).outcome = AddOutcome.added
    ∧ (add_monitor [("1", ⟨"Alice", 7, "bob", 10, some "tgt"⟩)] [] 50 ["添加监控", "1"]
        (FetchOutcome.ok 0 (DataObj.dict [("1", ⟨some 1, some 7, some "t", some "Alice", none⟩)]))
        false "carol" 20 (some "tgt2")).monitored
      = [("1", ⟨"Alice", 7, "carol", 20, some "tgt2"⟩)]
    ∧ (10 : Nat) ≠ 20 := by
  refine ⟨rfl, rfl, by decide⟩

/-- C6 (amended): calling add for an identifier already present does
not change the registry size and creates no duplicate, but when the
command succeeds it overwrites the existing entry — `added_time`
becomes the current time and `added_by`/notify target are replaced —
rather than being rejected as a no-op error. -/
theorem readd_size_and_overwrite (monitored : List (String × MonitorEntry))
    (cache : List (String × Nat)) (maxMonitors : Nat) (args : List String)
    (outcome : FetchOutcome) (rl : Bool) (sender : String) (now : Nat)
    (origin : Option String)
    (hmem : (alookup monitored (args.getD 1 "")).isSome = true) :
    ((add_monitor monitored cache maxMonitors args outcome rl sender now origin).monitored.length
        = monitored.length)
    ∧ ((add_monitor monitored cache maxMonitors args outcome rl sender now origin).outcome
          = AddOutcome.added →
        alookup (add_monitor monitored cache maxMonitors args outcome rl sender now origin).monitored
            (args.getD 1 "")
          = some ⟨(get_live_status (args.getD 1 "") outcome rl).1.uname,
                  (get_live_status (args.getD 1 "") outcome rl).1.room_id,
                  sender, now, origin⟩) := by
  simp only [add_monitor]
  split
  · exact ⟨rfl, by simp⟩
  · split
    · exact ⟨rfl, by simp⟩
    · split
      · exact ⟨rfl, by simp⟩
      · split
        · exact ⟨rfl, by simp⟩
        · exact ⟨length_insertOrReplace monitored _ _ hmem,
            fun _ => alookup_insertOrReplace_self _ _ _⟩

theorem readd_size_and_overwrite_witness :
    (add_monitor [("1", ⟨"Alice", 7, "bob", 10, some "tgt"⟩)] [] 50 ["add", "1"]
        (FetchOutcome.ok 0 (DataObj.dict [("1", ⟨some 1, some 7, some "t", some "Bob", none⟩)]))
        false "carol" 20 (some "tgt2")).monitored.length = 1 := by
  have h := (readd_size_and_overwrite [("1", ⟨"Alice", 7, "bob", 10, some "tgt"⟩)] [] 50
    ["add", "1"] (FetchOutcome.ok 0 (DataObj.dict [("1", ⟨some 1, some 7, some "t", some "Bob", none⟩)]))
    false "carol" 20 (some "tgt2") (by decide)).1
  rw [h]
  rfl

end BiliLive
